import Mathlib

/-!
Verification of the EDZ antenna length calculator (`src/edz.py`).

The program is embedded shallowly over exact rationals:

* Python `int(...)` truncation toward zero is `pyTrunc`;
* Python `round(...)` (round half to even) is `pyRound`;
* Python `range(a, b, s)` is `pyRange`, returning `none` when `s = 0`
  (Python raises `ValueError` there) and the list of produced integers
  otherwise;
* Python `//` and `%` on integers are `Int.fdiv` and `Int.fmod`
  (floor division and the matching remainder);
* `calculate_antenna_lengths` mirrors the source function line by line,
  returning `none` exactly when the Python call raises.

Records are ordered structures mirroring the per-sample dictionary that
the source builds, and `csv_fields` is the column list from the driver.
-/

namespace EDZ

/-- Python `int(q)` on an exact rational: truncation toward zero. -/
def pyTrunc (q : ℚ) : ℤ := if 0 ≤ q then ⌊q⌋ else -⌊-q⌋

/-- Python `round(q)` on an exact rational: round half to even. -/
def pyRound (q : ℚ) : ℤ :=
  if q - ⌊q⌋ < 1/2 then ⌊q⌋
  else if 1/2 < q - ⌊q⌋ then ⌊q⌋ + 1
  else if 2 ∣ ⌊q⌋ then ⌊q⌋ else ⌊q⌋ + 1

/-- Number of elements of Python `range(a, b, s)` for `s ≠ 0`. -/
def pyRangeLen (a b s : ℤ) : ℕ :=
  if 0 < s then ((b - a + s - 1).fdiv s).toNat
  else ((a - b - s - 1).fdiv (-s)).toNat

/-- The element list of Python `range(a, b, s)` for `s ≠ 0`. -/
def pyRangeList (a b s : ℤ) : List ℤ :=
  (List.range (pyRangeLen a b s)).map (fun (i : ℕ) => a + s * (i : ℤ))

/-- Python `range(a, b, s)`: `none` models the `ValueError` raised on a
zero step, otherwise the (finite) list of produced integers. -/
def pyRange (a b s : ℤ) : Option (List ℤ) :=
  if s = 0 then none else some (pyRangeList a b s)

/-- The per-sample output dictionary of `calculate_antenna_lengths`
(source lines 48-61), with its fields in insertion order. -/
structure DimensionRecord where
  Band : String
  Frequency_MHz : ℚ
  Element_Length_Ft : ℤ
  Element_Length_In : ℤ
  Stub_Length_Ft : ℤ
  Stub_Length_In : ℤ
  Reflector_Length_Ft : ℤ
  Reflector_Length_In : ℤ
  Total_Antenna_Length_Ft : ℤ
  Total_Antenna_Length_In : ℤ
  Total_Reflector_Length_Ft : ℤ
  Total_Reflector_Length_In : ℤ

/-- The nested helper of the source (lines 37-40): Python `//` and `%`
on the rounded total-inch count. -/
def to_feet_and_inches (total_inches : ℤ) : ℤ × ℤ :=
  (total_inches.fdiv 12, total_inches.fmod 12)

/-- The `Band` label of every record: the f-string
`f"{band_mhz[0]}-{band_mhz[1]} MHz"` of source line 49, built from the
band's declared bounds only. -/
def formatBand (band_mhz : ℚ × ℚ) : String :=
  toString band_mhz.1 ++ "-" ++ toString band_mhz.2 ++ " MHz"

/-- The five unrounded per-sample lengths (source lines 22-34). -/
structure RawLengths where
  element_length : ℚ
  stub_length : ℚ
  reflector_length : ℚ
  total_antenna_length : ℚ
  total_reflector_length : ℚ

/-- The per-sample length computation of source lines 22-34, written as
the same chain of intermediate values. -/
def rawLengths (reflector_adjustment velocity_factor freq_mhz : ℚ) : RawLengths :=
  let wavelength := 11811 / freq_mhz
  let effective_wavelength := wavelength * velocity_factor
  let element_length := effective_wavelength * 5 / 8 / 12
  let stub_length := effective_wavelength * 1 / 8 / 12
  let reflector_length := element_length * (1 + reflector_adjustment)
  let total_antenna_length := element_length * 2
  let total_reflector_length := reflector_length * 2
  ⟨element_length, stub_length, reflector_length,
    total_antenna_length, total_reflector_length⟩

/-- One loop iteration of `calculate_antenna_lengths` (source lines
20-61): `freq` is the integer loop variable in millihertz. -/
def mkRecord (band_mhz : ℚ × ℚ) (reflector_adjustment velocity_factor : ℚ)
    (freq : ℤ) : DimensionRecord :=
  let freq_mhz : ℚ := (freq : ℚ) / 1000
  let raw := rawLengths reflector_adjustment velocity_factor freq_mhz
  let e := to_feet_and_inches (pyRound (raw.element_length * 12))
  let s := to_feet_and_inches (pyRound (raw.stub_length * 12))
  let rf := to_feet_and_inches (pyRound (raw.reflector_length * 12))
  let ta := to_feet_and_inches (pyRound (raw.total_antenna_length * 12))
  let tr := to_feet_and_inches (pyRound (raw.total_reflector_length * 12))
  { Band := formatBand band_mhz
    Frequency_MHz := freq_mhz
    Element_Length_Ft := e.1
    Element_Length_In := e.2
    Stub_Length_Ft := s.1
    Stub_Length_In := s.2
    Reflector_Length_Ft := rf.1
    Reflector_Length_In := rf.2
    Total_Antenna_Length_Ft := ta.1
    Total_Antenna_Length_In := ta.2
    Total_Reflector_Length_Ft := tr.1
    Total_Reflector_Length_In := tr.2 }

/-- `calculate_antenna_lengths` of `src/edz.py`, lines 3-63.  The result
is `none` exactly when the Python call raises (zero millihertz step in
`range`).  The conversions `int(x * 1000)` of source line 20 are
modeled as exact rational truncation (`pyTrunc`); CPython evaluates
them on IEEE-754 doubles, which agrees with the exact truncation on the
driver's band table and default step but can differ by one millihertz
on other decimal inputs (for example `int(1.013 * 1000)` is 1012), so
theorems about the sampled frequency set pin the converted integers by
hypothesis rather than computing them from the decimal bounds. -/
def calculate_antenna_lengths (band_mhz : ℚ × ℚ) (frequency_step : ℚ := 1/100)
    (reflector_adjustment : ℚ := 1/20) (velocity_factor : ℚ := 49/50) :
    Option (List DimensionRecord) :=
  (pyRange (pyTrunc (band_mhz.1 * 1000)) (pyTrunc (band_mhz.2 * 1000))
      (pyTrunc (frequency_step * 1000))).map
    (List.map (mkRecord band_mhz reflector_adjustment velocity_factor))

/-- The CSV column list of the driver (source lines 86-91). -/
def csv_fields : List String :=
  ["Band", "Frequency_MHz", "Element_Length_Ft", "Element_Length_In",
   "Stub_Length_Ft", "Stub_Length_In", "Reflector_Length_Ft", "Reflector_Length_In",
   "Total_Antenna_Length_Ft", "Total_Antenna_Length_In", "Total_Reflector_Length_Ft",
   "Total_Reflector_Length_In"]

/-- A value stored in one field of the per-sample dictionary. -/
inductive FieldValue where
  | ofString (v : String)
  | ofRat (v : ℚ)
  | ofInt (v : ℤ)

/-- The per-sample dictionary as an association list, in the insertion
order of source lines 48-61. -/
def recordEntries (r : DimensionRecord) : List (String × FieldValue) :=
  [("Band", .ofString r.Band),
   ("Frequency_MHz", .ofRat r.Frequency_MHz),
   ("Element_Length_Ft", .ofInt r.Element_Length_Ft),
   ("Element_Length_In", .ofInt r.Element_Length_In),
   ("Stub_Length_Ft", .ofInt r.Stub_Length_Ft),
   ("Stub_Length_In", .ofInt r.Stub_Length_In),
   ("Reflector_Length_Ft", .ofInt r.Reflector_Length_Ft),
   ("Reflector_Length_In", .ofInt r.Reflector_Length_In),
   ("Total_Antenna_Length_Ft", .ofInt r.Total_Antenna_Length_Ft),
   ("Total_Antenna_Length_In", .ofInt r.Total_Antenna_Length_In),
   ("Total_Reflector_Length_Ft", .ofInt r.Total_Reflector_Length_Ft),
   ("Total_Reflector_Length_In", .ofInt r.Total_Reflector_Length_In)]

/-- The frequency of the last record, when the call succeeds and
produced at least one record. -/
def lastFreq (o : Option (List DimensionRecord)) : Option ℚ :=
  (o.bind List.getLast?).map DimensionRecord.Frequency_MHz

/-- The first record of a successful call, when one exists. -/
def headRecord (o : Option (List DimensionRecord)) : Option DimensionRecord :=
  o.bind List.head?

/-- A small concrete band, 1.8 MHz to 1.81 MHz, used to exhibit
satisfiable hypotheses: with the default step it yields one sample. -/
def wband : ℚ × ℚ := (9/5, 181/100)

/-- The single record produced for `wband` with the default
parameters. -/
def wrec : DimensionRecord := mkRecord wband (1/20) (49/50) 1800

lemma pyTrunc_intCast (n : ℤ) : pyTrunc (n : ℚ) = n := by
  unfold pyTrunc
  split_ifs with h
  · exact Int.floor_intCast n
  · rw [← Int.cast_neg, Int.floor_intCast]; ring

lemma pyTrunc_eq_floor {q : ℚ} (h : 0 ≤ q) : pyTrunc q = ⌊q⌋ := by
  unfold pyTrunc; rw [if_pos h]

lemma pyTrunc_nonneg {q : ℚ} (h : 0 ≤ q) : 0 ≤ pyTrunc q := by
  rw [pyTrunc_eq_floor h]; exact Int.floor_nonneg.mpr h

lemma pyTrunc_le {q : ℚ} (h : 0 ≤ q) : (pyTrunc q : ℚ) ≤ q := by
  rw [pyTrunc_eq_floor h]; exact Int.floor_le q

lemma pyRound_sub_abs_le (q : ℚ) : |(pyRound q : ℚ) - q| ≤ 1/2 := by
  have h1 : (⌊q⌋ : ℚ) ≤ q := Int.floor_le q
  have h2 : q < ⌊q⌋ + 1 := Int.lt_floor_add_one q
  unfold pyRound
  split_ifs with ha hb hc <;> rw [abs_le] <;> constructor <;> push_cast <;> linarith

lemma pyRound_nonneg {q : ℚ} (h : 0 ≤ q) : 0 ≤ pyRound q := by
  have hb := pyRound_sub_abs_le q
  rw [abs_le] at hb
  have h2 : (-1 : ℚ) < (pyRound q : ℚ) := by linarith
  have h3 : (-1 : ℤ) < pyRound q := by exact_mod_cast h2
  omega

lemma pyRound_mono {p q : ℚ} (h : p ≤ q) : pyRound p ≤ pyRound q := by
  by_contra hc
  push_neg at hc
  have h1 := pyRound_sub_abs_le p
  have h2 := pyRound_sub_abs_le q
  rw [abs_le] at h1 h2
  have hle : pyRound q + 1 ≤ pyRound p := Int.add_one_le_iff.mpr hc
  have hleQ : (pyRound q : ℚ) + 1 ≤ (pyRound p : ℚ) := by exact_mod_cast hle
  have hpq : p = q := le_antisymm h (by linarith)
  rw [hpq] at hc
  exact lt_irrefl _ hc

lemma pyRound_double_close (q : ℚ) : |pyRound (2 * q) - 2 * pyRound q| ≤ 1 := by
  have h1 := pyRound_sub_abs_le q
  have h2 := pyRound_sub_abs_le (2 * q)
  rw [abs_le] at h1 h2
  have hu : ((pyRound (2 * q) - 2 * pyRound q : ℤ) : ℚ) ≤ 3/2 := by push_cast; linarith
  have hl : (-(3/2) : ℚ) ≤ ((pyRound (2 * q) - 2 * pyRound q : ℤ) : ℚ) := by push_cast; linarith
  rw [abs_le]
  constructor
  · by_contra hcc
    push_neg at hcc
    have : ((pyRound (2 * q) - 2 * pyRound q : ℤ) : ℚ) < -1 := by exact_mod_cast hcc
    have : ((pyRound (2 * q) - 2 * pyRound q : ℤ) : ℚ) ≤ -2 := by
      have hz : pyRound (2 * q) - 2 * pyRound q ≤ -2 := by
        have : pyRound (2 * q) - 2 * pyRound q < -1 := by exact_mod_cast this
        omega
      exact_mod_cast hz
    linarith
  · by_contra hcc
    push_neg at hcc
    have : (1 : ℚ) < ((pyRound (2 * q) - 2 * pyRound q : ℤ) : ℚ) := by exact_mod_cast hcc
    have : (2 : ℚ) ≤ ((pyRound (2 * q) - 2 * pyRound q : ℤ) : ℚ) := by
      have hz : 2 ≤ pyRound (2 * q) - 2 * pyRound q := by
        have : 1 < pyRound (2 * q) - 2 * pyRound q := by exact_mod_cast this
        omega
      exact_mod_cast hz
    linarith

lemma tfi_fst (n : ℤ) : (to_feet_and_inches n).1 = n / 12 := by
  unfold to_feet_and_inches
  exact Int.fdiv_eq_ediv n (by norm_num)

lemma tfi_snd (n : ℤ) : (to_feet_and_inches n).2 = n % 12 := by
  unfold to_feet_and_inches
  exact Int.fmod_eq_emod n (by norm_num)

lemma tfi_recompose (n : ℤ) :
    (to_feet_and_inches n).1 * 12 + (to_feet_and_inches n).2 = n := by
  rw [tfi_fst, tfi_snd]; omega

lemma tfi_in_bounds (n : ℤ) :
    0 ≤ (to_feet_and_inches n).2 ∧ (to_feet_and_inches n).2 < 12 := by
  rw [tfi_snd]; omega

lemma tfi_ft_nonneg {n : ℤ} (h : 0 ≤ n) : 0 ≤ (to_feet_and_inches n).1 := by
  rw [tfi_fst]; omega

lemma pyRangeList_mem {a b s x : ℤ} (h : x ∈ pyRangeList a b s) :
    ∃ i : ℕ, i < pyRangeLen a b s ∧ x = a + s * (i : ℤ) := by
  unfold pyRangeList at h
  obtain ⟨i, hi, hx⟩ := List.mem_map.mp h
  exact ⟨i, List.mem_range.mp hi, hx.symm⟩

lemma pyRangeList_lt {a b s x : ℤ} (hs : 0 < s) (h : x ∈ pyRangeList a b s) :
    x < b := by
  obtain ⟨i, hi, hx⟩ := pyRangeList_mem h
  subst hx
  unfold pyRangeLen at hi
  rw [if_pos hs] at hi
  have hfd : (b - a + s - 1).fdiv s = (b - a + s - 1) / s := Int.fdiv_eq_ediv _ hs.le
  rw [hfd] at hi
  have hq : 1 ≤ (b - a + s - 1) / s := by omega
  have hle : s * ((b - a + s - 1) / s) ≤ b - a + s - 1 := by
    have h0 := Int.ediv_add_emod (b - a + s - 1) s
    have h1 := Int.emod_nonneg (b - a + s - 1) (ne_of_gt hs)
    linarith
  have hiD : (i : ℤ) ≤ (b - a + s - 1) / s - 1 := by omega
  have hmul : s * (i : ℤ) ≤ s * ((b - a + s - 1) / s - 1) :=
    mul_le_mul_of_nonneg_left hiD hs.le
  have hexp : s * ((b - a + s - 1) / s - 1) = s * ((b - a + s - 1) / s) - s := by ring
  linarith

lemma pyRangeList_le {a b s x : ℤ} (hs : 0 < s) (h : x ∈ pyRangeList a b s) :
    a ≤ x := by
  obtain ⟨i, _, hx⟩ := pyRangeList_mem h
  subst hx
  have : 0 ≤ s * (i : ℤ) := mul_nonneg hs.le (by exact_mod_cast Nat.zero_le i)
  linarith

lemma calc_step_ne_zero {b : ℚ × ℚ} {st r v : ℚ} {l : List DimensionRecord}
    (hl : calculate_antenna_lengths b st r v = some l) :
    pyTrunc (st * 1000) ≠ 0 := by
  unfold calculate_antenna_lengths pyRange at hl
  split_ifs at hl with h
  · simp at hl
  · exact h

lemma calc_eq_of_ne {b : ℚ × ℚ} {st r v : ℚ} (h : pyTrunc (st * 1000) ≠ 0) :
    calculate_antenna_lengths b st r v =
      some ((pyRangeList (pyTrunc (b.1 * 1000)) (pyTrunc (b.2 * 1000))
        (pyTrunc (st * 1000))).map (mkRecord b r v)) := by
  unfold calculate_antenna_lengths pyRange
  rw [if_neg h]
  rfl

lemma calc_mem {b : ℚ × ℚ} {st r v : ℚ} {l : List DimensionRecord}
    {rec : DimensionRecord}
    (hl : calculate_antenna_lengths b st r v = some l) (hrec : rec ∈ l) :
    ∃ x ∈ pyRangeList (pyTrunc (b.1 * 1000)) (pyTrunc (b.2 * 1000))
        (pyTrunc (st * 1000)), rec = mkRecord b r v x := by
  have h0 := calc_step_ne_zero hl
  rw [calc_eq_of_ne h0] at hl
  have hl' : (pyRangeList (pyTrunc (b.1 * 1000)) (pyTrunc (b.2 * 1000))
      (pyTrunc (st * 1000))).map (mkRecord b r v) = l := by
    exact Option.some.inj hl
  rw [← hl'] at hrec
  obtain ⟨x, hx, hxe⟩ := List.mem_map.mp hrec
  exact ⟨x, hx, hxe.symm⟩

lemma mkRecord_Frequency (b : ℚ × ℚ) (r v : ℚ) (f : ℤ) :
    (mkRecord b r v f).Frequency_MHz = (f : ℚ) / 1000 := rfl

lemma mkRecord_Band (b : ℚ × ℚ) (r v : ℚ) (f : ℤ) :
    (mkRecord b r v f).Band = formatBand b := rfl

lemma rawLengths_element (r v fm : ℚ) :
    (rawLengths r v fm).element_length = 11811 / fm * v * 5 / 8 / 12 := rfl

lemma rawLengths_stub (r v fm : ℚ) :
    (rawLengths r v fm).stub_length = 11811 / fm * v * 1 / 8 / 12 := rfl

lemma rawLengths_reflector (r v fm : ℚ) :
    (rawLengths r v fm).reflector_length =
      11811 / fm * v * 5 / 8 / 12 * (1 + r) := rfl

lemma rawLengths_total_antenna (r v fm : ℚ) :
    (rawLengths r v fm).total_antenna_length =
      11811 / fm * v * 5 / 8 / 12 * 2 := rfl

lemma rawLengths_total_reflector (r v fm : ℚ) :
    (rawLengths r v fm).total_reflector_length =
      11811 / fm * v * 5 / 8 / 12 * (1 + r) * 2 := rfl

lemma mkRecord_Element_Ft (b : ℚ × ℚ) (r v : ℚ) (f : ℤ) :
    (mkRecord b r v f).Element_Length_Ft =
      (to_feet_and_inches (pyRound
        ((rawLengths r v ((f : ℚ)/1000)).element_length * 12))).1 := rfl

lemma mkRecord_Element_In (b : ℚ × ℚ) (r v : ℚ) (f : ℤ) :
    (mkRecord b r v f).Element_Length_In =
      (to_feet_and_inches (pyRound
        ((rawLengths r v ((f : ℚ)/1000)).element_length * 12))).2 := rfl

lemma mkRecord_Stub_Ft (b : ℚ × ℚ) (r v : ℚ) (f : ℤ) :
    (mkRecord b r v f).Stub_Length_Ft =
      (to_feet_and_inches (pyRound
        ((rawLengths r v ((f : ℚ)/1000)).stub_length * 12))).1 := rfl

lemma mkRecord_Stub_In (b : ℚ × ℚ) (r v : ℚ) (f : ℤ) :
    (mkRecord b r v f).Stub_Length_In =
      (to_feet_and_inches (pyRound
        ((rawLengths r v ((f : ℚ)/1000)).stub_length * 12))).2 := rfl

lemma mkRecord_Reflector_Ft (b : ℚ × ℚ) (r v : ℚ) (f : ℤ) :
    (mkRecord b r v f).Reflector_Length_Ft =
      (to_feet_and_inches (pyRound
        ((rawLengths r v ((f : ℚ)/1000)).reflector_length * 12))).1 := rfl

lemma mkRecord_Reflector_In (b : ℚ × ℚ) (r v : ℚ) (f : ℤ) :
    (mkRecord b r v f).Reflector_Length_In =
      (to_feet_and_inches (pyRound
        ((rawLengths r v ((f : ℚ)/1000)).reflector_length * 12))).2 := rfl

lemma mkRecord_Total_Antenna_Ft (b : ℚ × ℚ) (r v : ℚ) (f : ℤ) :
    (mkRecord b r v f).Total_Antenna_Length_Ft =
      (to_feet_and_inches (pyRound
        ((rawLengths r v ((f : ℚ)/1000)).total_antenna_length * 12))).1 := rfl

lemma mkRecord_Total_Antenna_In (b : ℚ × ℚ) (r v : ℚ) (f : ℤ) :
    (mkRecord b r v f).Total_Antenna_Length_In =
      (to_feet_and_inches (pyRound
        ((rawLengths r v ((f : ℚ)/1000)).total_antenna_length * 12))).2 := rfl

lemma mkRecord_Total_Reflector_Ft (b : ℚ × ℚ) (r v : ℚ) (f : ℤ) :
    (mkRecord b r v f).Total_Reflector_Length_Ft =
      (to_feet_and_inches (pyRound
        ((rawLengths r v ((f : ℚ)/1000)).total_reflector_length * 12))).1 := rfl

lemma mkRecord_Total_Reflector_In (b : ℚ × ℚ) (r v : ℚ) (f : ℤ) :
    (mkRecord b r v f).Total_Reflector_Length_In =
      (to_feet_and_inches (pyRound
        ((rawLengths r v ((f : ℚ)/1000)).total_reflector_length * 12))).2 := rfl

lemma rawLengths_nonneg {r v fm : ℚ} (hr : 0 ≤ r) (hv : 0 ≤ v) (hfm : 0 ≤ fm) :
    0 ≤ (rawLengths r v fm).element_length ∧
    0 ≤ (rawLengths r v fm).stub_length ∧
    0 ≤ (rawLengths r v fm).reflector_length ∧
    0 ≤ (rawLengths r v fm).total_antenna_length ∧
    0 ≤ (rawLengths r v fm).total_reflector_length := by
  have h0 : (0:ℚ) ≤ 11811 / fm := div_nonneg (by norm_num) hfm
  have hwv : (0:ℚ) ≤ 11811 / fm * v := mul_nonneg h0 hv
  have he : (0:ℚ) ≤ 11811 / fm * v * 5 / 8 / 12 :=
    div_nonneg (div_nonneg (mul_nonneg hwv (by norm_num)) (by norm_num)) (by norm_num)
  have hs : (0:ℚ) ≤ 11811 / fm * v * 1 / 8 / 12 :=
    div_nonneg (div_nonneg (mul_nonneg hwv (by norm_num)) (by norm_num)) (by norm_num)
  have hrf : (0:ℚ) ≤ 11811 / fm * v * 5 / 8 / 12 * (1 + r) :=
    mul_nonneg he (by linarith)
  exact ⟨by rw [rawLengths_element]; exact he,
    by rw [rawLengths_stub]; exact hs,
    by rw [rawLengths_reflector]; exact hrf,
    by rw [rawLengths_total_antenna]; exact mul_nonneg he (by norm_num),
    by rw [rawLengths_total_reflector]; exact mul_nonneg hrf (by norm_num)⟩

lemma head_map_range {α : Type} (f : ℕ → α) {n : ℕ} (h : n ≠ 0) :
    ((List.range n).map f).head? = some (f 0) := by
  rw [List.head?_eq_getElem?, List.getElem?_map,
    List.getElem?_range (by omega : 0 < n)]
  rfl

lemma last_map_range {α : Type} (f : ℕ → α) {n : ℕ} (h : n ≠ 0) :
    ((List.range n).map f).getLast? = some (f (n - 1)) := by
  rw [List.getLast?_eq_getElem?, List.length_map, List.length_range,
    List.getElem?_map, List.getElem?_range (by omega : n - 1 < n)]
  rfl

/-- A one-record instance used to exhibit satisfiable hypotheses: band
(1.8, 1.81) with the default parameters yields the single sample at
1800 millihertz-thousandths. -/
lemma calc_single_eval :
    calculate_antenna_lengths wband (1/100) (1/20) (49/50) = some [wrec] := by
  show calculate_antenna_lengths (9/5, 181/100) (1/100) (1/20) (49/50) =
      some [mkRecord (9/5, 181/100) (1/20) (49/50) 1800]
  have hA : pyTrunc ((9/5 : ℚ) * 1000) = 1800 := by
    rw [pyTrunc_eq_floor (by norm_num)]; norm_num
  have hB : pyTrunc ((181/100 : ℚ) * 1000) = 1810 := by
    rw [pyTrunc_eq_floor (by norm_num)]; norm_num
  have hS : pyTrunc ((1/100 : ℚ) * 1000) = 10 := by
    rw [pyTrunc_eq_floor (by norm_num)]; norm_num
  rw [calc_eq_of_ne (by rw [hS]; decide)]
  show some ((pyRangeList (pyTrunc ((9/5 : ℚ) * 1000)) (pyTrunc ((181/100 : ℚ) * 1000))
      (pyTrunc ((1/100 : ℚ) * 1000))).map (mkRecord (9/5, 181/100) (1/20) (49/50))) = _
  rw [hA, hB, hS, (by decide : pyRangeList 1800 1810 10 = [1800])]
  rfl

/-- C2, the claim as stated is false: for the valid band (1.8, 1.803)
and positive step 0.0015 MHz the step exactly divides the band width
(0.003 = 2 x 0.0015), yet the last record's frequency is 1.802 MHz
(the step truncates to 1 millihertz), not endMHz - frequencyStep =
1.8015 MHz. -/
theorem C2_counterexample :
    (9:ℚ)/5 < 1803/1000 ∧ (0:ℚ) < 3/2000 ∧
      ((1803:ℚ)/1000 - 9/5) = 2 * (3/2000) ∧
      lastFreq (calculate_antenna_lengths (9/5, 1803/1000) (3/2000) (1/20) (49/50)) =
        some (901/500) ∧
      ¬ ((901:ℚ)/500 = 1803/1000 - 3/2000) := by
  refine ⟨by norm_num, by norm_num, by norm_num, ?_, by norm_num⟩
  have hA : pyTrunc ((9/5 : ℚ) * 1000) = 1800 := by
    rw [pyTrunc_eq_floor (by norm_num)]; norm_num
  have hB : pyTrunc ((1803/1000 : ℚ) * 1000) = 1803 := by
    rw [pyTrunc_eq_floor (by norm_num)]; norm_num
  have hS : pyTrunc ((3/2000 : ℚ) * 1000) = 1 := by
    rw [pyTrunc_eq_floor (by norm_num)]; norm_num
  rw [calc_eq_of_ne (by rw [hS]; decide)]
  show lastFreq (some ((pyRangeList (pyTrunc ((9/5 : ℚ) * 1000))
      (pyTrunc ((1803/1000 : ℚ) * 1000)) (pyTrunc ((3/2000 : ℚ) * 1000))).map
      (mkRecord (9/5, 1803/1000) (1/20) (49/50)))) = _
  rw [hA, hB, hS, (by decide : pyRangeList 1800 1803 1 = [1800, 1801, 1802])]
  show some ((mkRecord (9/5, 1803/1000) (1/20) (49/50) 1802).Frequency_MHz) =
    some (901/500)
  rw [mkRecord_Frequency]
  norm_num

/-- C2 (amended): for every valid band, every positive frequencyStep
and every successful call, every record's sampled frequency is strictly
less than endMHz (half-open interval); and writing A, B, S for the
converted whole-millihertz values int(startMHz * 1000),
int(endMHz * 1000), int(frequencyStep * 1000) the loop actually
iterates over, whenever A < B and S exactly divides B - A, the last
record's sampled frequency equals (B - S)/1000 MHz, the converted end
minus the converted step, and by the first part is never endMHz
itself. -/
theorem C2_half_open (b : ℚ × ℚ) (st r v : ℚ) (l : List DimensionRecord)
    (hb1 : 0 < b.1) (hb : b.1 < b.2) (hst : 0 < st)
    (hl : calculate_antenna_lengths b st r v = some l) :
    (∀ rec ∈ l, rec.Frequency_MHz < b.2) ∧
    (∀ A B S M : ℤ, pyTrunc (b.1 * 1000) = A → pyTrunc (b.2 * 1000) = B →
      pyTrunc (st * 1000) = S → B - A = M * S → A < B →
      lastFreq (some l) = some (((B - S : ℤ) : ℚ) / 1000)) := by
  have hS0 : pyTrunc (st * 1000) ≠ 0 := calc_step_ne_zero hl
  have hSnn : 0 ≤ pyTrunc (st * 1000) :=
    pyTrunc_nonneg (mul_nonneg hst.le (by norm_num))
  have hSpos : 0 < pyTrunc (st * 1000) := lt_of_le_of_ne hSnn (Ne.symm hS0)
  have hb2 : (0:ℚ) < b.2 := lt_trans hb1 hb
  constructor
  · intro rec hrec
    obtain ⟨x, hx, hre⟩ := calc_mem hl hrec
    subst hre
    rw [mkRecord_Frequency]
    have hxB : x < pyTrunc (b.2 * 1000) := pyRangeList_lt hSpos hx
    have hc1 : ((x:ℚ)) < (pyTrunc (b.2 * 1000) : ℚ) := by exact_mod_cast hxB
    have hc2 : (pyTrunc (b.2 * 1000) : ℚ) ≤ b.2 * 1000 :=
      pyTrunc_le (by linarith)
    rw [div_lt_iff₀ (by norm_num : (0:ℚ) < 1000)]
    linarith
  · intro A B S M hA' hB' hS' hBA hAB
    have hSpos' : 0 < S := hS' ▸ hSpos
    have hMpos : 0 < M := by
      have hMS : 0 < M * S := by rw [← hBA]; omega
      nlinarith
    have hn : pyRangeLen A B S = M.toNat := by
      unfold pyRangeLen
      rw [if_pos hSpos', Int.fdiv_eq_ediv _ hSpos'.le]
      have h1 : B - A + S - 1 = S - 1 + M * S := by linear_combination hBA
      rw [h1, Int.add_mul_ediv_right _ _ (ne_of_gt hSpos'),
        Int.ediv_eq_zero_of_lt (by omega) (by omega)]
      omega
    have hleq : l = (pyRangeList A B S).map (mkRecord b r v) := by
      have hc := @calc_eq_of_ne b st r v hS0
      rw [hl] at hc
      have h2 := Option.some.inj hc
      rw [hA', hB', hS'] at h2
      exact h2
    show ((some l).bind List.getLast?).map DimensionRecord.Frequency_MHz =
      some (((B - S : ℤ) : ℚ) / 1000)
    rw [hleq]
    show (((pyRangeList A B S).map (mkRecord b r v)).getLast?).map
      DimensionRecord.Frequency_MHz = some (((B - S : ℤ) : ℚ) / 1000)
    unfold pyRangeList
    rw [List.map_map, hn, last_map_range _ (by omega : M.toNat ≠ 0)]
    show some ((mkRecord b r v (A + S * ((M.toNat - 1 : ℕ) : ℤ))).Frequency_MHz) =
      some (((B - S : ℤ) : ℚ) / 1000)
    rw [mkRecord_Frequency]
    have hcast : ((M.toNat - 1 : ℕ) : ℤ) = M - 1 := by omega
    rw [hcast]
    have hlast : A + S * (M - 1) = B - S := by linear_combination -hBA
    rw [hlast]

/-- C2 witness: the hypotheses are satisfiable at the band (1.8, 1.81)
with the default step, which yields the single record `wrec`. -/
theorem C2_half_open_witness :
    (∀ rec ∈ [wrec], rec.Frequency_MHz < wband.2) ∧
    (∀ A B S M : ℤ, pyTrunc (wband.1 * 1000) = A → pyTrunc (wband.2 * 1000) = B →
      pyTrunc ((1:ℚ)/100 * 1000) = S → B - A = M * S → A < B →
      lastFreq (some [wrec]) = some (((B - S : ℤ) : ℚ) / 1000)) :=
  C2_half_open wband (1/100) (1/20) (49/50) [wrec]
    (by norm_num [wband]) (by norm_num [wband]) (by norm_num) calc_single_eval

/-- C3: for every sampled frequency f (MHz), velocityFactor vf and
reflectorAdjustment r, the unrounded per-record lengths satisfy the
specified formulas: with wavelengthInches = 11811 / f and
effectiveWavelength = wavelengthInches * vf, the element length is
(effectiveWavelength * 5/8) / 12 feet, the stub length is
(effectiveWavelength * 1/8) / 12 feet, the reflector length is
elementLengthFeet * (1 + r), the total antenna length is
2 * elementLengthFeet and the total reflector length is
2 * reflectorLengthFeet. -/
theorem C3_raw_formulas (r v f : ℚ) :
    (rawLengths r v f).element_length = (11811 / f * v) * (5/8) / 12 ∧
    (rawLengths r v f).stub_length = (11811 / f * v) * (1/8) / 12 ∧
    (rawLengths r v f).reflector_length =
      (rawLengths r v f).element_length * (1 + r) ∧
    (rawLengths r v f).total_antenna_length =
      2 * (rawLengths r v f).element_length ∧
    (rawLengths r v f).total_reflector_length =
      2 * (rawLengths r v f).reflector_length := by
  refine ⟨?_, ?_, ?_, ?_, ?_⟩ <;>
    simp only [rawLengths_element, rawLengths_stub, rawLengths_reflector,
      rawLengths_total_antenna, rawLengths_total_reflector] <;>
    ring

/-- C4: for every record produced from well-formed non-negative inputs,
each of the five (feet, inches) pairs recomposes to the rounded
total-inch count totalInches = round(lengthFeet * 12) via
feet * 12 + inches = totalInches, and satisfies 0 <= inches < 12 and
feet >= 0. -/
theorem C4_feet_inches_invariant (b : ℚ × ℚ) (st r v : ℚ)
    (l : List DimensionRecord) (rec : DimensionRecord)
    (hb1 : 0 ≤ b.1) (hst : 0 < st) (hr : 0 ≤ r) (hv : 0 ≤ v)
    (hl : calculate_antenna_lengths b st r v = some l) (hrec : rec ∈ l) :
    (rec.Element_Length_Ft * 12 + rec.Element_Length_In =
        pyRound ((rawLengths r v rec.Frequency_MHz).element_length * 12) ∧
      0 ≤ rec.Element_Length_In ∧ rec.Element_Length_In < 12 ∧
      0 ≤ rec.Element_Length_Ft) ∧
    (rec.Stub_Length_Ft * 12 + rec.Stub_Length_In =
        pyRound ((rawLengths r v rec.Frequency_MHz).stub_length * 12) ∧
      0 ≤ rec.Stub_Length_In ∧ rec.Stub_Length_In < 12 ∧
      0 ≤ rec.Stub_Length_Ft) ∧
    (rec.Reflector_Length_Ft * 12 + rec.Reflector_Length_In =
        pyRound ((rawLengths r v rec.Frequency_MHz).reflector_length * 12) ∧
      0 ≤ rec.Reflector_Length_In ∧ rec.Reflector_Length_In < 12 ∧
      0 ≤ rec.Reflector_Length_Ft) ∧
    (rec.Total_Antenna_Length_Ft * 12 + rec.Total_Antenna_Length_In =
        pyRound ((rawLengths r v rec.Frequency_MHz).total_antenna_length * 12) ∧
      0 ≤ rec.Total_Antenna_Length_In ∧ rec.Total_Antenna_Length_In < 12 ∧
      0 ≤ rec.Total_Antenna_Length_Ft) ∧
    (rec.Total_Reflector_Length_Ft * 12 + rec.Total_Reflector_Length_In =
        pyRound ((rawLengths r v rec.Frequency_MHz).total_reflector_length * 12) ∧
      0 ≤ rec.Total_Reflector_Length_In ∧ rec.Total_Reflector_Length_In < 12 ∧
      0 ≤ rec.Total_Reflector_Length_Ft) := by
  obtain ⟨x, hx, hre⟩ := calc_mem hl hrec
  have hS0 : pyTrunc (st * 1000) ≠ 0 := calc_step_ne_zero hl
  have hSnn : 0 ≤ pyTrunc (st * 1000) :=
    pyTrunc_nonneg (mul_nonneg hst.le (by norm_num))
  have hSpos : 0 < pyTrunc (st * 1000) := lt_of_le_of_ne hSnn (Ne.symm hS0)
  have hA0 : 0 ≤ pyTrunc (b.1 * 1000) :=
    pyTrunc_nonneg (mul_nonneg hb1 (by norm_num))
  have hxA : pyTrunc (b.1 * 1000) ≤ x := pyRangeList_le hSpos hx
  have hx0 : (0:ℤ) ≤ x := le_trans hA0 hxA
  have hfm : (0:ℚ) ≤ (x : ℚ) / 1000 :=
    div_nonneg (by exact_mod_cast hx0) (by norm_num)
  subst hre
  obtain ⟨he, hs, hrf, hta, htr⟩ := rawLengths_nonneg hr hv hfm
  simp only [mkRecord_Frequency, mkRecord_Element_Ft, mkRecord_Element_In,
    mkRecord_Stub_Ft, mkRecord_Stub_In, mkRecord_Reflector_Ft,
    mkRecord_Reflector_In, mkRecord_Total_Antenna_Ft, mkRecord_Total_Antenna_In,
    mkRecord_Total_Reflector_Ft, mkRecord_Total_Reflector_In]
  exact ⟨⟨tfi_recompose _, (tfi_in_bounds _).1, (tfi_in_bounds _).2,
      tfi_ft_nonneg (pyRound_nonneg (mul_nonneg he (by norm_num)))⟩,
    ⟨tfi_recompose _, (tfi_in_bounds _).1, (tfi_in_bounds _).2,
      tfi_ft_nonneg (pyRound_nonneg (mul_nonneg hs (by norm_num)))⟩,
    ⟨tfi_recompose _, (tfi_in_bounds _).1, (tfi_in_bounds _).2,
      tfi_ft_nonneg (pyRound_nonneg (mul_nonneg hrf (by norm_num)))⟩,
    ⟨tfi_recompose _, (tfi_in_bounds _).1, (tfi_in_bounds _).2,
      tfi_ft_nonneg (pyRound_nonneg (mul_nonneg hta (by norm_num)))⟩,
    ⟨tfi_recompose _, (tfi_in_bounds _).1, (tfi_in_bounds _).2,
      tfi_ft_nonneg (pyRound_nonneg (mul_nonneg htr (by norm_num)))⟩⟩

/-- C4 witness: the hypotheses are satisfiable at the band (1.8, 1.81)
with the default parameters and its single record `wrec`. -/
theorem C4_feet_inches_invariant_witness :
    (wrec.Element_Length_Ft * 12 + wrec.Element_Length_In =
        pyRound ((rawLengths (1/20) (49/50) wrec.Frequency_MHz).element_length * 12) ∧
      0 ≤ wrec.Element_Length_In ∧ wrec.Element_Length_In < 12 ∧
      0 ≤ wrec.Element_Length_Ft) ∧
    (wrec.Stub_Length_Ft * 12 + wrec.Stub_Length_In =
        pyRound ((rawLengths (1/20) (49/50) wrec.Frequency_MHz).stub_length * 12) ∧
      0 ≤ wrec.Stub_Length_In ∧ wrec.Stub_Length_In < 12 ∧
      0 ≤ wrec.Stub_Length_Ft) ∧
    (wrec.Reflector_Length_Ft * 12 + wrec.Reflector_Length_In =
        pyRound ((rawLengths (1/20) (49/50) wrec.Frequency_MHz).reflector_length * 12) ∧
      0 ≤ wrec.Reflector_Length_In ∧ wrec.Reflector_Length_In < 12 ∧
      0 ≤ wrec.Reflector_Length_Ft) ∧
    (wrec.Total_Antenna_Length_Ft * 12 + wrec.Total_Antenna_Length_In =
        pyRound ((rawLengths (1/20) (49/50) wrec.Frequency_MHz).total_antenna_length * 12) ∧
      0 ≤ wrec.Total_Antenna_Length_In ∧ wrec.Total_Antenna_Length_In < 12 ∧
      0 ≤ wrec.Total_Antenna_Length_Ft) ∧
    (wrec.Total_Reflector_Length_Ft * 12 + wrec.Total_Reflector_Length_In =
        pyRound ((rawLengths (1/20) (49/50) wrec.Frequency_MHz).total_reflector_length * 12) ∧
      0 ≤ wrec.Total_Reflector_Length_In ∧ wrec.Total_Reflector_Length_In < 12 ∧
      0 ≤ wrec.Total_Reflector_Length_Ft) :=
  C4_feet_inches_invariant wband (1/100) (1/20) (49/50) [wrec] wrec
    (by norm_num [wband]) (by norm_num) (by norm_num) (by norm_num)
    calc_single_eval (List.mem_singleton_self _)

/-- C6: calculate_antenna_lengths is deterministic; it is a pure
function of its four arguments (band, frequencyStep,
reflectorAdjustment, velocityFactor), so two calls with identical
inputs yield identical output sequences, with no dependence on hidden
or mutable state. -/
theorem C6_deterministic (b₁ b₂ : ℚ × ℚ) (st₁ st₂ r₁ r₂ v₁ v₂ : ℚ)
    (hb : b₁ = b₂) (hst : st₁ = st₂) (hr : r₁ = r₂) (hv : v₁ = v₂) :
    calculate_antenna_lengths b₁ st₁ r₁ v₁ =
      calculate_antenna_lengths b₂ st₂ r₂ v₂ := by
  rw [hb, hst, hr, hv]

/-- C6 witness: two identical calls at the band (1.8, 1.81) with the
default parameters agree. -/
theorem C6_deterministic_witness :
    wband = wband ∧ (1:ℚ)/100 = 1/100 ∧ (1:ℚ)/20 = 1/20 ∧
      (49:ℚ)/50 = 49/50 ∧
      calculate_antenna_lengths wband (1/100) (1/20) (49/50) =
        calculate_antenna_lengths wband (1/100) (1/20) (49/50) :=
  ⟨rfl, rfl, rfl, rfl,
    C6_deterministic wband wband (1/100) (1/100) (1/20) (1/20) (49/50) (49/50)
      rfl rfl rfl rfl⟩

/-- C7: for every record, the total-antenna length re-expressed in total
inches differs from twice the element length in total inches by at most
1 inch: the independent rounding of the doubled quantity drifts by no
more than 1 inch from doubling the rounded quantity. -/
theorem C7_total_vs_double (b : ℚ × ℚ) (st r v : ℚ)
    (l : List DimensionRecord) (rec : DimensionRecord)
    (hl : calculate_antenna_lengths b st r v = some l) (hrec : rec ∈ l) :
    |(rec.Total_Antenna_Length_Ft * 12 + rec.Total_Antenna_Length_In) -
      2 * (rec.Element_Length_Ft * 12 + rec.Element_Length_In)| ≤ 1 := by
  obtain ⟨x, hx, hre⟩ := calc_mem hl hrec
  subst hre
  simp only [mkRecord_Total_Antenna_Ft, mkRecord_Total_Antenna_In,
    mkRecord_Element_Ft, mkRecord_Element_In]
  rw [tfi_recompose, tfi_recompose]
  have hta : (rawLengths r v ((x : ℚ)/1000)).total_antenna_length * 12 =
      2 * ((rawLengths r v ((x : ℚ)/1000)).element_length * 12) := by
    rw [rawLengths_total_antenna, rawLengths_element]
    ring
  rw [hta]
  exact pyRound_double_close _

/-- C7 witness: the hypotheses are satisfiable at the band (1.8, 1.81)
with the default parameters and its single record `wrec`. -/
theorem C7_total_vs_double_witness :
    |(wrec.Total_Antenna_Length_Ft * 12 + wrec.Total_Antenna_Length_In) -
      2 * (wrec.Element_Length_Ft * 12 + wrec.Element_Length_In)| ≤ 1 :=
  C7_total_vs_double wband (1/100) (1/20) (49/50) [wrec] wrec
    calc_single_eval (List.mem_singleton_self _)

/-- C8: for band (14.0, 14.35) with frequencyStep 0.01,
reflectorAdjustment 0.05 and velocityFactor 0.98, the first record has
Frequency_MHz = 14.0 and Element_Length_Ft = 43, with Element_Length_In
equal to 1, the exact half-to-even rounding of
11811/14.0 * 0.98 * 5/8 = 516.73125 inches (rounded to 517 = 43*12+1). -/
theorem C8_first_record_20m :
    ((headRecord (calculate_antenna_lengths (14, 287/20) (1/100) (1/20) (49/50))).map
        DimensionRecord.Frequency_MHz = some 14) ∧
    ((headRecord (calculate_antenna_lengths (14, 287/20) (1/100) (1/20) (49/50))).map
        DimensionRecord.Element_Length_Ft = some 43) ∧
    ((headRecord (calculate_antenna_lengths (14, 287/20) (1/100) (1/20) (49/50))).map
        DimensionRecord.Element_Length_In = some 1) ∧
    pyRound (11811 / 14 * (49/50) * (5/8)) = 43 * 12 + 1 := by
  have hA : pyTrunc ((14 : ℚ) * 1000) = 14000 := by
    rw [pyTrunc_eq_floor (by norm_num)]; norm_num
  have hB : pyTrunc ((287/20 : ℚ) * 1000) = 14350 := by
    rw [pyTrunc_eq_floor (by norm_num)]; norm_num
  have hS : pyTrunc ((1/100 : ℚ) * 1000) = 10 := by
    rw [pyTrunc_eq_floor (by norm_num)]; norm_num
  have hcalc : calculate_antenna_lengths (14, 287/20) (1/100) (1/20) (49/50) =
      some ((pyRangeList 14000 14350 10).map (mkRecord (14, 287/20) (1/20) (49/50))) := by
    rw [calc_eq_of_ne (by rw [hS]; decide)]
    show some ((pyRangeList (pyTrunc ((14 : ℚ) * 1000)) (pyTrunc ((287/20 : ℚ) * 1000))
        (pyTrunc ((1/100 : ℚ) * 1000))).map (mkRecord (14, 287/20) (1/20) (49/50))) = _
    rw [hA, hB, hS]
  have hhead : headRecord (calculate_antenna_lengths (14, 287/20) (1/100) (1/20) (49/50)) =
      some (mkRecord (14, 287/20) (1/20) (49/50) 14000) := by
    rw [hcalc]
    show ((pyRangeList 14000 14350 10).map (mkRecord (14, 287/20) (1/20) (49/50))).head? = _
    unfold pyRangeList
    rw [List.map_map, head_map_range _ (by decide : pyRangeLen 14000 14350 10 ≠ 0)]
    show some (mkRecord (14, 287/20) (1/20) (49/50) (14000 + 10 * ((0:ℕ):ℤ))) = _
    norm_num
  have hval : (rawLengths (1/20) (49/50) (((14000:ℤ):ℚ)/1000)).element_length * 12 =
      82677/160 := by
    rw [rawLengths_element]
    norm_num
  have hround : pyRound (82677/160 : ℚ) = 517 := by
    unfold pyRound
    rw [(by norm_num : ⌊(82677/160 : ℚ)⌋ = 516)]
    norm_num
  refine ⟨?_, ?_, ?_, ?_⟩
  · rw [hhead]
    show some ((mkRecord (14, 287/20) (1/20) (49/50) 14000).Frequency_MHz) = some 14
    rw [mkRecord_Frequency]
    norm_num
  · rw [hhead]
    show some ((mkRecord (14, 287/20) (1/20) (49/50) 14000).Element_Length_Ft) = some 43
    rw [mkRecord_Element_Ft, hval, hround]
    decide
  · rw [hhead]
    show some ((mkRecord (14, 287/20) (1/20) (49/50) 14000).Element_Length_In) = some 1
    rw [mkRecord_Element_In, hval, hround]
    decide
  · rw [(by norm_num : (11811 / 14 * (49/50) * (5/8) : ℚ) = 82677/160), hround]
    decide

/-- C9: every record has exactly the twelve fields Band, Frequency_MHz,
Element_Length_Ft, Element_Length_In, Stub_Length_Ft, Stub_Length_In,
Reflector_Length_Ft, Reflector_Length_In, Total_Antenna_Length_Ft,
Total_Antenna_Length_In, Total_Reflector_Length_Ft,
Total_Reflector_Length_In, in that order (matching the CSV column
list), and its Band field is the label built from the band's original
declared bounds, identical for every record of the band. -/
theorem C9_fields (b : ℚ × ℚ) (st r v : ℚ) (l : List DimensionRecord)
    (rec : DimensionRecord)
    (hl : calculate_antenna_lengths b st r v = some l) (hrec : rec ∈ l) :
    (recordEntries rec).map Prod.fst = csv_fields ∧ rec.Band = formatBand b := by
  obtain ⟨x, hx, hre⟩ := calc_mem hl hrec
  subst hre
  exact ⟨rfl, rfl⟩

/-- C9 witness: the hypotheses are satisfiable at the band (1.8, 1.81)
with the default parameters and its single record `wrec`. -/
theorem C9_fields_witness :
    (recordEntries wrec).map Prod.fst = csv_fields ∧ wrec.Band = formatBand wband :=
  C9_fields wband (1/100) (1/20) (49/50) [wrec] wrec calc_single_eval
    (List.mem_singleton_self _)

/-- C10: whenever reflectorAdjustment >= 0 and velocityFactor > 0 (on a
non-negative band with a positive step), in every record the reflector
length in total inches is at least the element length in total inches,
and the total-reflector length in total inches is at least the
total-antenna length in total inches. -/
theorem C10_reflector_ge (b : ℚ × ℚ) (st r v : ℚ)
    (l : List DimensionRecord) (rec : DimensionRecord)
    (hb1 : 0 ≤ b.1) (hst : 0 < st) (hr : 0 ≤ r) (hv : 0 < v)
    (hl : calculate_antenna_lengths b st r v = some l) (hrec : rec ∈ l) :
    rec.Element_Length_Ft * 12 + rec.Element_Length_In ≤
      rec.Reflector_Length_Ft * 12 + rec.Reflector_Length_In ∧
    rec.Total_Antenna_Length_Ft * 12 + rec.Total_Antenna_Length_In ≤
      rec.Total_Reflector_Length_Ft * 12 + rec.Total_Reflector_Length_In := by
  obtain ⟨x, hx, hre⟩ := calc_mem hl hrec
  have hS0 : pyTrunc (st * 1000) ≠ 0 := calc_step_ne_zero hl
  have hSnn : 0 ≤ pyTrunc (st * 1000) :=
    pyTrunc_nonneg (mul_nonneg hst.le (by norm_num))
  have hSpos : 0 < pyTrunc (st * 1000) := lt_of_le_of_ne hSnn (Ne.symm hS0)
  have hA0 : 0 ≤ pyTrunc (b.1 * 1000) :=
    pyTrunc_nonneg (mul_nonneg hb1 (by norm_num))
  have hxA : pyTrunc (b.1 * 1000) ≤ x := pyRangeList_le hSpos hx
  have hx0 : (0:ℤ) ≤ x := le_trans hA0 hxA
  have hfm : (0:ℚ) ≤ (x : ℚ) / 1000 :=
    div_nonneg (by exact_mod_cast hx0) (by norm_num)
  have h0 : (0:ℚ) ≤ 11811 / ((x : ℚ) / 1000) := div_nonneg (by norm_num) hfm
  have heE : (0:ℚ) ≤ 11811 / ((x : ℚ) / 1000) * v * 5 / 8 / 12 :=
    div_nonneg (div_nonneg (mul_nonneg (mul_nonneg h0 hv.le) (by norm_num))
      (by norm_num)) (by norm_num)
  have h1 : 11811 / ((x : ℚ) / 1000) * v * 5 / 8 / 12 ≤
      11811 / ((x : ℚ) / 1000) * v * 5 / 8 / 12 * (1 + r) :=
    le_mul_of_one_le_right heE (by linarith)
  subst hre
  simp only [mkRecord_Element_Ft, mkRecord_Element_In, mkRecord_Reflector_Ft,
    mkRecord_Reflector_In, mkRecord_Total_Antenna_Ft, mkRecord_Total_Antenna_In,
    mkRecord_Total_Reflector_Ft, mkRecord_Total_Reflector_In]
  rw [tfi_recompose, tfi_recompose, tfi_recompose, tfi_recompose]
  constructor
  · apply pyRound_mono
    rw [rawLengths_element, rawLengths_reflector]
    linarith
  · apply pyRound_mono
    rw [rawLengths_total_antenna, rawLengths_total_reflector]
    linarith

/-- C10 witness: the hypotheses are satisfiable at the band (1.8, 1.81)
with the default parameters and its single record `wrec`. -/
theorem C10_reflector_ge_witness :
    wrec.Element_Length_Ft * 12 + wrec.Element_Length_In ≤
      wrec.Reflector_Length_Ft * 12 + wrec.Reflector_Length_In ∧
    wrec.Total_Antenna_Length_Ft * 12 + wrec.Total_Antenna_Length_In ≤
      wrec.Total_Reflector_Length_Ft * 12 + wrec.Total_Reflector_Length_In :=
  C10_reflector_ge wband (1/100) (1/20) (49/50) [wrec] wrec
    (by norm_num [wband]) (by norm_num) (by norm_num) (by norm_num)
    calc_single_eval (List.mem_singleton_self _)

end EDZ
